import Mathlib

/-!
Shallow embedding of the policy/validation core of the F.A.M.
(Family Appointed Moderator) personal finance application.

The embedding mirrors the Python source:
* `budget.py`   — `BudgetCategory`, `Budget` (total, spent, lock flag);
* `account.py`  — `BankAccount` (starting/current balance, lock flag);
* `transaction.py` — `Transaction`, the `TransactionManager` policy fields
  (`lock_threshold`, `warning_threshold`, `max_locked_budgets`,
  `persistent_warning`) and the per-user-type concrete values
  (Angel / Troublemaker / Rebel), and `add_transaction` / `calc_total_spent`;
* `user.py`     — `update_lock_status`, `_update_account_lock_status`,
  `check_and_issue_user_warnings`;
* `driver.py`   — `validate_transaction_record` and the
  `record_transaction` accept/mutate sequence.

Python floats are modelled as rationals (`ℚ`).  Python raises
`ZeroDivisionError` on float division by zero; every division in the
source is therefore modelled explicitly: an operation that would divide
by zero is mapped to a `fault` outcome (with the in-place mutations that
happened before the raise preserved, as in Python).  Python truthiness of
an optional numeric field (`if lock_threshold and ...`) is modelled by
`truthyQ` / `truthyN`: `None` and `0` are falsy, everything else truthy.
Console output of the core (warnings, notifications, locked-status
messages) is modelled as a list of emitted `Signal`s.
-/

namespace FAM

/-- The four budget categories of `budget.py` (`BudgetCategory` enum). -/
inductive BudgetCategory where
  | games_and_entertainment
  | clothing_and_accessories
  | eating_out
  | miscellaneous
deriving DecidableEq, Repr

/-- The `.value` string of each `BudgetCategory` enum member. -/
def BudgetCategory.value : BudgetCategory → String
  | .games_and_entertainment => "Games and Entertainment"
  | .clothing_and_accessories => "Clothing and Accessories"
  | .eating_out => "Eating Out"
  | .miscellaneous => "Miscellaneous"

/-- `Budget` from `budget.py`: one category's allocation, spend and lock flag.
`amount_spent` starts at 0 and `locked_status` at `false` on construction. -/
structure Budget where
  budget_category : BudgetCategory
  amount_total : ℚ
  amount_spent : ℚ
  locked_status : Bool
deriving DecidableEq, Repr

/-- `Budget.lock_budget`: sets the locked status to true. -/
def Budget.lock_budget (b : Budget) : Budget :=
  { b with locked_status := true }

/-- `Budget.add_amount_spent`: adds an amount to the amount spent. -/
def Budget.add_amount_spent (b : Budget) (amount : ℚ) : Budget :=
  { b with amount_spent := b.amount_spent + amount }

/-- `Budget.calc_current_amount`: remaining amount (may be negative). -/
def Budget.calc_current_amount (b : Budget) : ℚ :=
  b.amount_total - b.amount_spent

/-- `BankAccount` from `account.py`.  `current_balance` is initialized to
`starting_balance` by `BankAccount.__init__` and `locked_status` to false. -/
structure BankAccount where
  account_number : String
  bank_name : String
  starting_balance : ℚ
  current_balance : ℚ
  locked_status : Bool
deriving DecidableEq, Repr

/-- `BankAccount.generate_bank_account` /`__init__`: a fresh account has
`current_balance = starting_balance` and is unlocked. -/
def BankAccount.generate_bank_account (num name : String) (bal : ℚ) : BankAccount :=
  { account_number := num, bank_name := name, starting_balance := bal,
    current_balance := bal, locked_status := false }

/-- `BankAccount.add_amount_spent`: `current_balance -= amount_spent`. -/
def BankAccount.add_amount_spent (a : BankAccount) (amount : ℚ) : BankAccount :=
  { a with current_balance := a.current_balance - amount }

/-- `Transaction` from `transaction.py`: timestamp (year, month, day),
amount, the raw 1-based budget-category integer, and merchant name. -/
structure Transaction where
  timestamp : ℕ × ℕ × ℕ
  tx_amount : ℚ
  budget_category : ℕ
  merchant_name : String
deriving DecidableEq, Repr

/-- The policy fields every concrete `TransactionManager` subclass sets in
`transaction.py`: `lock_threshold`, `warning_threshold`,
`max_locked_budgets`, `persistent_warning`. -/
structure Policy where
  lock_threshold : Option ℚ
  warning_threshold : ℚ
  max_locked_budgets : Option ℕ
  persistent_warning : Bool
deriving DecidableEq, Repr

/-- `AngelTransactionManager.__init__` threshold fields. -/
def angelPolicy : Policy :=
  { lock_threshold := none, warning_threshold := 9/10,
    max_locked_budgets := none, persistent_warning := false }

/-- `TroublemakerTransactionManager.__init__` threshold fields. -/
def troublemakerPolicy : Policy :=
  { lock_threshold := some (6/5), warning_threshold := 3/4,
    max_locked_budgets := none, persistent_warning := false }

/-- `RebelTransactionManager.__init__` threshold fields. -/
def rebelPolicy : Policy :=
  { lock_threshold := some 1, warning_threshold := 1/2,
    max_locked_budgets := some 2, persistent_warning := true }

/-- Python truthiness of an optional numeric policy field:
`None` and `0` are falsy, any other number is truthy. -/
def truthyQ : Option ℚ → Bool
  | none => false
  | some x => decide (x ≠ 0)

/-- Python truthiness of an optional integer policy field. -/
def truthyN : Option ℕ → Bool
  | none => false
  | some n => decide (n ≠ 0)

/-- Error message appended by `Driver.validate_transaction_record` when the
account is locked. -/
def accountLockedMsg : String :=
  "  The account has been locked out completely for exceeding the budgets in two categories!\n"

/-- Error message appended when the target budget category is locked. -/
def budgetLockedMsg : String :=
  "  The budget category for the transaction entered is locked!\n"

/-- Error message appended when the amount exceeds the scaled budget total. -/
def budgetCeilingMsg : String :=
  "  Exceeded allowable budget available for the category selected!\n"

/-- Error message appended when the amount exceeds the bank balance. -/
def balanceMsg : String :=
  "  Insufficient bank balance available to complete the transaction!\n"

/-- `Driver.validate_transaction_record` (`driver.py` lines 210-250): runs
the four checks in order, each independently appending its error message
and clearing the validated flag; returns `(validated_tx, error_msg)`. -/
def validate_transaction_record (p : Policy) (account : BankAccount)
    (budget : Budget) (new_tx : Transaction) : Bool × String :=
  let budget_threshold := p.lock_threshold
  let v0 := true
  let m0 := ""
  let c1 := account.locked_status
  let m1 := if c1 then m0 ++ accountLockedMsg else m0
  let v1 := if c1 then false else v0
  let c2 := budget.locked_status
  let m2 := if c2 then m1 ++ budgetLockedMsg else m1
  let v2 := if c2 then false else v1
  let c3 := truthyQ budget_threshold &&
      decide (new_tx.tx_amount > budget.amount_total * budget_threshold.getD 0)
  let m3 := if c3 then m2 ++ budgetCeilingMsg else m2
  let v3 := if c3 then false else v2
  let c4 := decide (new_tx.tx_amount > account.current_balance)
  let m4 := if c4 then m3 ++ balanceMsg else m3
  let v4 := if c4 then false else v3
  (v4, m4)

/-- The console signals the core emits toward the display layer:
`BankAccount.issue_locked_warning`, `TransactionManager.issue_warning`,
`TransactionManager.issue_notification`, `BudgetManager.issue_locked_status`. -/
inductive Signal where
  | accountLockedWarning
  | warning (category : String)
  | notification (category : String)
  | lockedStatus (category : String)
deriving DecidableEq, Repr

/-- The mutable state a `User` aggregates: its `BankAccount`, the budgets of
its `BudgetManager` in dictionary insertion order, and the
`TransactionManager`'s record dictionary (`transaction_records`, in
insertion order) together with `current_tx_number`. -/
structure UserState where
  account : BankAccount
  budgets : List Budget
  tx_records : List (ℕ × Transaction)
  current_tx_number : ℕ
deriving DecidableEq, Repr

/-- `TransactionManager.__init__`: empty record dictionary,
`current_tx_number = 1`. -/
def freshUserState (account : BankAccount) (budgets : List Budget) : UserState :=
  { account := account, budgets := budgets, tx_records := [], current_tx_number := 1 }

/-- `TransactionManager.add_transaction`: stores the transaction under the
current number and increments the number by 1. -/
def add_transaction (s : UserState) (new_tx : Transaction) : UserState :=
  { s with tx_records := s.tx_records ++ [(s.current_tx_number, new_tx)],
           current_tx_number := s.current_tx_number + 1 }

/-- `TransactionManager.calc_total_spent`: sums `tx_amount` over all stored
transactions in order, starting from 0. -/
def calc_total_spent (records : List (ℕ × Transaction)) : ℚ :=
  records.foldl (fun total r => total + r.2.tx_amount) 0

/-- The budget loop of `User.update_lock_status` (`user.py` lines 144-151):
for each budget, in order, compute `amount_spent / amount_total` (a Python
`ZeroDivisionError` when `amount_total = 0`, modelled by the `Bool` fault
component, with the budgets already processed keeping their new locks);
lock the budget when the truthy `lock_threshold` is exceeded; then count
it if it is locked.  Returns (budgets, locked count, faulted). -/
def lockPass (lt : Option ℚ) : List Budget → ℕ → List Budget × ℕ × Bool
  | [], n => ([], n, false)
  | b :: bs, n =>
    if b.amount_total = 0 then (b :: bs, n, true)
    else
      let ratio := b.amount_spent / b.amount_total
      let b' := if truthyQ lt && decide (ratio > lt.getD 0) then b.lock_budget else b
      let n' := if b'.locked_status then n + 1 else n
      let r := lockPass lt bs n'
      (b' :: r.1, r.2.1, r.2.2)

/-- `User.update_lock_status` together with `User._update_account_lock_status`
(`user.py` lines 137-165): run the budget lock pass, then if the truthy
`max_locked_budgets` is reached, lock the account and issue the
account-locked warning.  The `Bool` is the `ZeroDivisionError` fault flag. -/
def update_lock_status (p : Policy) (s : UserState) : UserState × List Signal × Bool :=
  let r := lockPass p.lock_threshold s.budgets 0
  let s' := { s with budgets := r.1 }
  if r.2.2 then (s', [], true)
  else if truthyN p.max_locked_budgets && decide (r.2.1 ≥ p.max_locked_budgets.getD 0) then
    ({ s' with account := { s'.account with locked_status := true } },
     [Signal.accountLockedWarning], false)
  else (s', [], false)

/-- The `persistent_warning` loop of `User.check_and_issue_user_warnings`
(`user.py` lines 186-191): scan all budgets in order, dividing each
`amount_spent` by `amount_total` (fault = `none` on a zero total), and
accumulate the warning flag. -/
def persistentWarnScan (wt : ℚ) : List Budget → Bool → Option Bool
  | [], w => some w
  | b :: bs, w =>
    if b.amount_total = 0 then none
    else persistentWarnScan wt bs (w || decide (b.amount_spent / b.amount_total > wt))

/-- `User.check_and_issue_user_warnings` (`user.py` lines 167-209).
Divisions happen in source order: the current budget's ratio first, then
(when `persistent_warning`) each budget's ratio, then the current ratio is
divided by `warning_threshold` and the *truthiness of that quotient* is
the warning condition of line 193 (the source tests
`current_budget_threshold / warning_threshold`, not a comparison).
Returns the emitted signals, or `none` on a `ZeroDivisionError`. -/
def check_and_issue_user_warnings (p : Policy) (budgets : List Budget)
    (current_budget : Budget) : Option (List Signal) :=
  if current_budget.amount_total = 0 then none
  else
    let current_budget_threshold :=
      current_budget.amount_spent / current_budget.amount_total
    let scanned : Option Bool :=
      if p.persistent_warning then persistentWarnScan p.warning_threshold budgets false
      else some false
    match scanned with
    | none => none
    | some w0 =>
      if p.warning_threshold = 0 then none
      else
        let issue_warning :=
          w0 || decide (current_budget_threshold / p.warning_threshold ≠ 0)
        let issue_notification := decide (current_budget_threshold > 1)
        let issue_locked_status := current_budget.locked_status
        some ((if issue_warning
               then [Signal.warning current_budget.budget_category.value] else []) ++
              (if issue_notification
               then [Signal.notification current_budget.budget_category.value] else []) ++
              (if issue_locked_status
               then [Signal.lockedStatus current_budget.budget_category.value] else []))

/-- The first three post-acceptance mutations of `Driver.record_transaction`
(spec §4.2 steps 1-3): `budget.add_amount_spent`,
`account.add_amount_spent`, `tx_manager.add_transaction`. -/
def acceptMutations (s : UserState) (idx : ℕ) (budget : Budget)
    (new_tx : Transaction) : UserState :=
  add_transaction
    { s with budgets := s.budgets.set idx (budget.add_amount_spent new_tx.tx_amount),
             account := s.account.add_amount_spent new_tx.tx_amount }
    new_tx

/-- Outcome of `Driver.record_transaction`: the transaction was rejected by
validation (state returned untouched, with the error message), accepted
(final state plus the emitted signals), or the run raised an uncaught
`ZeroDivisionError`/`KeyError` (with the mutations performed before the
raise preserved, as in Python). -/
inductive RecordResult where
  | rejected (error_msg : String) (s : UserState)
  | accepted (s : UserState) (signals : List Signal)
  | fault (s : UserState)
deriving DecidableEq, Repr

/-- The state held in a `RecordResult`. -/
def RecordResult.state : RecordResult → UserState
  | .rejected _ s => s
  | .accepted s _ => s
  | .fault s => s

/-- The signals emitted by a completed (accepted) `record_transaction`. -/
def RecordResult.signals : RecordResult → List Signal
  | .accepted _ sigs => sigs
  | _ => []

/-- True when validation accepted and the run completed without fault. -/
def RecordResult.isAccepted : RecordResult → Bool
  | .accepted _ _ => true
  | _ => false

/-- True when the record dictionary received the transaction: validation
passed, so the append happened even if a later lock update faulted. -/
def RecordResult.appended : RecordResult → Bool
  | .rejected _ _ => false
  | _ => true

/-- `Driver.record_transaction` (`driver.py` lines 123-167), post-prompt:
resolve the budget from the transaction's 1-based category integer
(`BudgetManager.category_mapping` then `budget_dict`; an unknown category
is a `KeyError`, i.e. a fault before any mutation), validate, and on
acceptance perform the four mutations in order — `budget.add_amount_spent`,
`account.add_amount_spent`, `tx_manager.add_transaction`,
`user.update_lock_status` — then `check_and_issue_user_warnings` on the
(updated) target budget. -/
def record_transaction (p : Policy) (s : UserState) (new_tx : Transaction) : RecordResult :=
  if new_tx.budget_category = 0 then .fault s
  else
    let idx := new_tx.budget_category - 1
    match s.budgets[idx]? with
    | none => .fault s
    | some budget =>
      let v := validate_transaction_record p s.account budget new_tx
      if v.1 = false then .rejected v.2 s
      else
        let s1 := acceptMutations s idx budget new_tx
        let u := update_lock_status p s1
        if u.2.2 then .fault u.1
        else
          match u.1.budgets[idx]? with
          | none => .fault u.1
          | some b2 =>
            match check_and_issue_user_warnings p u.1.budgets b2 with
            | none => .fault u.1
            | some sigs2 => .accepted u.1 (u.2.1 ++ sigs2)

/-- A whole session: fold `record_transaction` over a list of proposed
transactions (each step continuing from the state the previous one left). -/
def runTxs (p : Policy) (s : UserState) : List Transaction → UserState
  | [] => s
  | t :: ts => runTxs p (record_transaction p s t).state ts

/-- Number of transactions of the run accepted by validation
(with the run completing, i.e. constructor `accepted`). -/
def countAccepted (p : Policy) (s : UserState) : List Transaction → ℕ
  | [] => 0
  | t :: ts =>
    (if (record_transaction p s t).isAccepted then 1 else 0) +
      countAccepted p (record_transaction p s t).state ts

/-- True when no step of the run raises an uncaught exception. -/
def faultFree (p : Policy) (s : UserState) : List Transaction → Bool
  | [] => true
  | t :: ts =>
    (match record_transaction p s t with | .fault _ => false | _ => true) &&
      faultFree p (record_transaction p s t).state ts

/-! Concrete states used by the scenario theorems and witnesses. -/

/-- A transaction with the given amount and 1-based category integer. -/
def mkTx (amt : ℚ) (cat : ℕ) : Transaction :=
  { timestamp := (2020, 1, 1), tx_amount := amt, budget_category := cat,
    merchant_name := "Merchant" }

/-- A budget in an arbitrary mid-session state. -/
def mkBudget (cat : BudgetCategory) (total spent : ℚ) (locked : Bool) : Budget :=
  { budget_category := cat, amount_total := total, amount_spent := spent,
    locked_status := locked }

/-- The Rebel scenario start state: two budgets of total 100, each with 50
already spent, and a comfortable unlocked bank account. -/
def rebelScenarioState : UserState :=
  freshUserState (BankAccount.generate_bank_account "A01074676" "TD Bank" 5000)
    [mkBudget .games_and_entertainment 100 50 false,
     mkBudget .clothing_and_accessories 100 50 false]

/-- A user state holding a zero-`amount_total` budget followed by a budget
far over its lock threshold. -/
def zeroTotalState : UserState :=
  freshUserState (BankAccount.generate_bank_account "A01074676" "TD Bank" 5000)
    [mkBudget .games_and_entertainment 0 0 false,
     mkBudget .clothing_and_accessories 100 200 false]

/-- A state with one budget already locked, used to observe that locks are
never cleared. -/
def lockedDemoState : UserState :=
  freshUserState (BankAccount.generate_bank_account "A01074676" "TD Bank" 5000)
    [mkBudget .games_and_entertainment 100 90 true,
     mkBudget .eating_out 100 0 false]

/-- A fresh single-budget state for the ledger sequence-number witness. -/
def ledgerDemoState : UserState :=
  freshUserState (BankAccount.generate_bank_account "A01074676" "TD Bank" 5000)
    [mkBudget .games_and_entertainment 100 0 false]

/-- An accept/reject/accept session: the middle transaction exceeds the
Rebel ceiling `100 * 1` and is rejected. -/
def ledgerDemoTxs : List Transaction := [mkTx 10 1, mkTx 200 1, mkTx 20 1]

/-- Lock flags only ever grow from `s` to `s'`: a locked account stays
locked, and the budget at any position, if locked in `s`, is locked in the
corresponding position of `s'`. -/
def lockStateMono (s s' : UserState) : Prop :=
  (s.account.locked_status = true → s'.account.locked_status = true) ∧
  ∀ (i : ℕ) (b b' : Budget), s.budgets[i]? = some b → s'.budgets[i]? = some b' →
    b.locked_status = true → b'.locked_status = true

end FAM

/- `Rat.add`, `Rat.sub`, `Rat.mul`, `Rat.inv` are `@[irreducible]` in the
library; make them semireducible in this file so that `decide` can
evaluate the embedded operations on concrete rational inputs. -/
attribute [local semireducible] Rat.mul Rat.inv Rat.add Rat.sub

namespace FAM

/-- C9: `validate_transaction_record` reads only the account's balance and
lock flag, the budget's `amount_total` and `locked_status`, the policy's
`lock_threshold` and the transaction; two states agreeing on those — but
with arbitrarily different `amount_spent` (and any other field) — get the
identical `(accepted, error message)` pair, because the ceiling check
compares the amount against `amount_total * lock_threshold`, never against
the remaining available amount. -/
theorem validate_independent_of_amount_spent
    (p p' : Policy) (acc acc' : BankAccount) (b b' : Budget) (tx : Transaction)
    (hlt : p.lock_threshold = p'.lock_threshold)
    (hbal : acc.current_balance = acc'.current_balance)
    (hlock : acc.locked_status = acc'.locked_status)
    (htot : b.amount_total = b'.amount_total)
    (hblock : b.locked_status = b'.locked_status) :
    validate_transaction_record p acc b tx = validate_transaction_record p' acc' b' tx := by
  simp only [validate_transaction_record, hlt, hbal, hlock, htot, hblock]

/-- Witness for C9: the same transaction validated against a freshly started
budget and against the same budget with 99 already spent (and a different
merchant history) yields the same verdict and message. -/
theorem validate_independent_of_amount_spent_witness :
    validate_transaction_record rebelPolicy
        (BankAccount.generate_bank_account "A01074676" "TD Bank" 5000)
        (mkBudget .eating_out 100 0 false) (mkTx 60 3) =
      validate_transaction_record rebelPolicy
        (BankAccount.generate_bank_account "A01074676" "TD Bank" 5000)
        (mkBudget .eating_out 100 99 false) (mkTx 60 3) :=
  validate_independent_of_amount_spent rebelPolicy rebelPolicy _ _ _ _ (mkTx 60 3)
    rfl rfl rfl rfl rfl

/-- C2: validation is a read-only decision; when it rejects, the whole of
`record_transaction` performs no mutation at all: the result carries the
validation error message and the *unchanged* input state (budgets, account,
ledger, sequence counter, lock flags — every field). -/
theorem rejected_transaction_mutates_nothing
    (p : Policy) (s : UserState) (tx : Transaction) (b : Budget)
    (hcat : tx.budget_category ≠ 0)
    (hb : s.budgets[tx.budget_category - 1]? = some b)
    (hv : (validate_transaction_record p s.account b tx).1 = false) :
    record_transaction p s tx =
      .rejected (validate_transaction_record p s.account b tx).2 s := by
  simp only [record_transaction, if_neg hcat, hb, hv, if_pos]

/-- Witness for C2: a transaction against a locked budget category is
rejected and the state is returned untouched. -/
theorem rejected_transaction_mutates_nothing_witness :
    record_transaction rebelPolicy
        (freshUserState (BankAccount.generate_bank_account "A" "B" 50)
          [mkBudget .games_and_entertainment 100 0 true])
        (mkTx 60 1) =
      .rejected
        (validate_transaction_record rebelPolicy
          (BankAccount.generate_bank_account "A" "B" 50)
          (mkBudget .games_and_entertainment 100 0 true) (mkTx 60 1)).2
        (freshUserState (BankAccount.generate_bank_account "A" "B" 50)
          [mkBudget .games_and_entertainment 100 0 true]) :=
  rejected_transaction_mutates_nothing rebelPolicy _ (mkTx 60 1)
    (mkBudget .games_and_entertainment 100 0 true)
    (by decide) (by decide) (by decide)

/-- C4 (refuted, code bug): `update_lock_status` computes
`amount_spent / amount_total` *before* the `lock_threshold` guard, so a
zero-`amount_total` budget raises `ZeroDivisionError` instead of being
skipped, and the remaining budgets are *not* processed: on a state whose
first budget has `amount_total = 0` and whose second budget is far over
the Rebel lock threshold, the fault flag is set, no budget is locked
(the over-threshold one included), and the account is untouched — under
every one of the three policies. -/
theorem update_lock_status_zero_total_faults :
    ((update_lock_status rebelPolicy zeroTotalState).2.2 = true ∧
     (update_lock_status rebelPolicy zeroTotalState).1 = zeroTotalState) ∧
    ((update_lock_status troublemakerPolicy zeroTotalState).2.2 = true ∧
     (update_lock_status troublemakerPolicy zeroTotalState).1 = zeroTotalState) ∧
    ((update_lock_status angelPolicy zeroTotalState).2.2 = true ∧
     (update_lock_status angelPolicy zeroTotalState).1 = zeroTotalState) := by
  decide

/-- C3 counterexample: the claim's if-and-only-if is false on the code.
Under the Angel policy (`persistent_warning = false`,
`warning_threshold = 0.9`) with a single unlocked budget of total 100 and
spent 10 (ratio 0.1), the code *does* emit the warning signal — line 193
of `user.py` tests the truthiness of `ratio / warning_threshold`
(`0.1/0.9 ≠ 0`), not `ratio > warning_threshold` — while every disjunct of
the claimed condition (persistent scan hit, ratio above threshold, locked
flag) is false. -/
theorem warning_signal_iff_counterexample :
    (check_and_issue_user_warnings angelPolicy
        [mkBudget .games_and_entertainment 100 10 false]
        (mkBudget .games_and_entertainment 100 10 false) =
      some [Signal.warning "Games and Entertainment"]) ∧
    ¬ ((angelPolicy.persistent_warning = true ∧
        ∃ x ∈ [mkBudget .games_and_entertainment 100 10 false],
          x.amount_spent / x.amount_total > angelPolicy.warning_threshold) ∨
       (mkBudget .games_and_entertainment 100 10 false).amount_spent /
          (mkBudget .games_and_entertainment 100 10 false).amount_total >
          angelPolicy.warning_threshold ∨
       (mkBudget .games_and_entertainment 100 10 false).locked_status = true) := by
  decide

/-- The `persistent_warning` scan completes (all totals nonzero) and its
flag is true iff some budget's spend ratio exceeds the threshold. -/
theorem persistentWarnScan_eq (wt : ℚ) (bs : List Budget) (w : Bool)
    (h : ∀ b ∈ bs, b.amount_total ≠ 0) :
    persistentWarnScan wt bs w =
      some (w || bs.any fun b => decide (b.amount_spent / b.amount_total > wt)) := by
  induction bs generalizing w with
  | nil => simp [persistentWarnScan]
  | cons b bs ih =>
    have hb : b.amount_total ≠ 0 := h b (List.mem_cons_self _ _)
    simp [persistentWarnScan, hb, ih _ (fun x hx => h x (List.mem_cons_of_mem _ hx)),
      Bool.or_assoc]

/-- A warning signal sits in the emitted triple concatenation iff the
warning flag is set (the other two signal kinds are distinct constructors). -/
theorem warning_mem_signals (s : String) (a b c : Bool) :
    Signal.warning s ∈ ((if a then [Signal.warning s] else []) ++
      (if b then [Signal.notification s] else []) ++
      (if c then [Signal.lockedStatus s] else [])) ↔ a = true := by
  cases a <;> cases b <;> cases c <;> simp

/-- C3 amended: for every policy with a nonzero `warning_threshold` and
every budget state with nonzero totals, `check_and_issue_user_warnings`
completes and emits the warning signal iff either the policy's
`persistent_warning` is set and some budget's spend ratio exceeds
`warning_threshold`, or the current budget's `amount_spent` is nonzero
(line 193 tests the truthiness of `ratio / warning_threshold`, which for a
nonzero threshold is exactly `amount_spent ≠ 0`); a locked current budget
feeds the separate locked-status signal, not the warning. -/
theorem warning_signal_iff (p : Policy) (budgets : List Budget) (cur : Budget)
    (hw : p.warning_threshold ≠ 0) (hcur : cur.amount_total ≠ 0)
    (hall : ∀ b ∈ budgets, b.amount_total ≠ 0) :
    (check_and_issue_user_warnings p budgets cur).isSome = true ∧
    ∀ sigs, check_and_issue_user_warnings p budgets cur = some sigs →
      (Signal.warning cur.budget_category.value ∈ sigs ↔
        ((p.persistent_warning = true ∧
          ∃ b ∈ budgets, b.amount_spent / b.amount_total > p.warning_threshold) ∨
         cur.amount_spent ≠ 0)) := by
  have hscan : (if p.persistent_warning
      then persistentWarnScan p.warning_threshold budgets false
      else some false) =
      some (p.persistent_warning &&
        budgets.any fun b => decide (b.amount_spent / b.amount_total > p.warning_threshold)) := by
    cases hpw : p.persistent_warning
    · simp
    · simp [persistentWarnScan_eq _ _ _ hall]
  have hdiv : (cur.amount_spent / cur.amount_total / p.warning_threshold ≠ 0) ↔
      cur.amount_spent ≠ 0 := by
    rw [div_ne_zero_iff, div_ne_zero_iff]
    tauto
  unfold check_and_issue_user_warnings
  rw [if_neg hcur, hscan]
  simp only [if_neg hw]
  constructor
  · simp
  · intro sigs hs
    injection hs with hs
    subst hs
    rw [warning_mem_signals]
    simp [hdiv, List.any_eq_true]

/-- Witness for the amended C3: under the Rebel policy a budget of total
100 with 80 spent (ratio 0.8 > 0.5, spent nonzero) emits the warning. -/
theorem warning_signal_iff_witness :
    (rebelPolicy.warning_threshold ≠ 0 ∧
     (mkBudget .games_and_entertainment 100 80 false).amount_total ≠ 0 ∧
     ∀ b ∈ [mkBudget .games_and_entertainment 100 80 false], b.amount_total ≠ 0) ∧
    ((check_and_issue_user_warnings rebelPolicy
        [mkBudget .games_and_entertainment 100 80 false]
        (mkBudget .games_and_entertainment 100 80 false)).isSome = true ∧
     ∀ sigs, check_and_issue_user_warnings rebelPolicy
        [mkBudget .games_and_entertainment 100 80 false]
        (mkBudget .games_and_entertainment 100 80 false) = some sigs →
      (Signal.warning
          (mkBudget .games_and_entertainment 100 80 false).budget_category.value ∈ sigs ↔
        ((rebelPolicy.persistent_warning = true ∧
          ∃ b ∈ [mkBudget .games_and_entertainment 100 80 false],
            b.amount_spent / b.amount_total > rebelPolicy.warning_threshold) ∨
         (mkBudget .games_and_entertainment 100 80 false).amount_spent ≠ 0))) :=
  ⟨⟨by decide, by decide, by decide⟩,
   warning_signal_iff rebelPolicy _ _ (by decide) (by decide) (by decide)⟩

/-- C1: `validate_transaction_record` runs all four checks independently in
the fixed order (account locked, budget locked, ceiling, balance) without
short-circuiting: the verdict is `true` iff *no* check fails, and the
error message is the concatenation of the distinct messages of exactly the
failed checks, in that order — never just the first.  The hypothesis
records that the session policies never carry a `lock_threshold` of `0`
(the source guards the ceiling check with Python truthiness, under which
`None` and `0` coincide). -/
theorem validate_all_checks_accumulate (p : Policy) (acc : BankAccount)
    (b : Budget) (tx : Transaction)
    (hlt : ∀ t, p.lock_threshold = some t → t ≠ 0) :
    ((validate_transaction_record p acc b tx).1 = true ↔
      (acc.locked_status = false ∧ b.locked_status = false ∧
        (∀ t, p.lock_threshold = some t → tx.tx_amount ≤ b.amount_total * t) ∧
        tx.tx_amount ≤ acc.current_balance)) ∧
    (validate_transaction_record p acc b tx).2 =
      (if acc.locked_status then accountLockedMsg else "") ++
      (if b.locked_status then budgetLockedMsg else "") ++
      (if p.lock_threshold.any fun t => decide (tx.tx_amount > b.amount_total * t)
        then budgetCeilingMsg else "") ++
      (if tx.tx_amount > acc.current_balance then balanceMsg else "") := by
  rcases hp : p.lock_threshold with _ | t
  · by_cases h1 : acc.locked_status = true <;>
    by_cases h2 : b.locked_status = true <;>
    by_cases h4 : acc.current_balance < tx.tx_amount <;>
    first
      | simp [validate_transaction_record, hp, truthyQ, h1, h2, h4, not_lt.mp h4]
      | simp [validate_transaction_record, hp, truthyQ, h1, h2, h4]
  · have ht : t ≠ 0 := hlt t hp
    by_cases h1 : acc.locked_status = true <;>
    by_cases h2 : b.locked_status = true <;>
    by_cases h3 : b.amount_total * t < tx.tx_amount <;>
    by_cases h4 : acc.current_balance < tx.tx_amount <;>
    first
      | simp [validate_transaction_record, hp, truthyQ, ht, h1, h2, h3, h4,
              not_lt.mp h3, not_lt.mp h4]
      | simp [validate_transaction_record, hp, truthyQ, ht, h1, h2, h3, h4,
              not_lt.mp h3]
      | simp [validate_transaction_record, hp, truthyQ, ht, h1, h2, h3, h4,
              not_lt.mp h4]
      | simp [validate_transaction_record, hp, truthyQ, ht, h1, h2, h3, h4]

/-- A locked bank account whose balance is also too small for the witness
transaction, so that two distinct checks fail at once. -/
def lockedPoorAccount : BankAccount :=
  { account_number := "A01074676", bank_name := "TD Bank",
    starting_balance := 50, current_balance := 50, locked_status := true }

/-- Witness for C1: under the Rebel policy, a 60-amount transaction against
a locked account holding 50 fails the account-locked check *and* the
balance check, and the returned message stacks both reasons. -/
theorem validate_all_checks_accumulate_witness :
    (∀ t, rebelPolicy.lock_threshold = some t → t ≠ 0) ∧
    (validate_transaction_record rebelPolicy lockedPoorAccount
        (mkBudget .eating_out 100 0 false) (mkTx 60 3)).2 =
      (if lockedPoorAccount.locked_status then accountLockedMsg else "") ++
      (if (mkBudget .eating_out 100 0 false).locked_status then budgetLockedMsg else "") ++
      (if rebelPolicy.lock_threshold.any fun t =>
            decide ((mkTx 60 3).tx_amount > (mkBudget .eating_out 100 0 false).amount_total * t)
        then budgetCeilingMsg else "") ++
      (if (mkTx 60 3).tx_amount > lockedPoorAccount.current_balance then balanceMsg else "") :=
  have hlt : ∀ t, rebelPolicy.lock_threshold = some t → t ≠ 0 := by
    intro t ht
    simp only [rebelPolicy, Option.some.injEq] at ht
    subst ht
    norm_num
  ⟨hlt, (validate_all_checks_accumulate rebelPolicy lockedPoorAccount
      (mkBudget .eating_out 100 0 false) (mkTx 60 3) hlt).2⟩

/-- C6: Rebel scenario.  From two budgets of total 100 (each with 50 spent,
so the 51-amount transactions pass the `total * lockThreshold = 100`
ceiling), an accepted transaction pushes the first budget to
`amount_spent = 101` (ratio 1.01 > 1.0) and `update_lock_status` locks it,
while the account stays unlocked (1 < maxLockedCategories); a second
accepted transaction pushes the other budget to 101, it is locked too,
the locked count 2 ≥ 2 locks the account, and the account-locked warning
signal is emitted. -/
theorem rebel_scenario_locks_account :
    (record_transaction rebelPolicy rebelScenarioState (mkTx 51 1)).isAccepted = true ∧
    (record_transaction rebelPolicy rebelScenarioState (mkTx 51 1)).state.budgets.map
        Budget.amount_spent = [101, 50] ∧
    (record_transaction rebelPolicy rebelScenarioState (mkTx 51 1)).state.budgets.map
        Budget.locked_status = [true, false] ∧
    (record_transaction rebelPolicy rebelScenarioState (mkTx 51 1)).state.account.locked_status
        = false ∧
    Signal.accountLockedWarning ∉
      (record_transaction rebelPolicy rebelScenarioState (mkTx 51 1)).signals ∧
    (record_transaction rebelPolicy
        (record_transaction rebelPolicy rebelScenarioState (mkTx 51 1)).state
        (mkTx 51 2)).isAccepted = true ∧
    (record_transaction rebelPolicy
        (record_transaction rebelPolicy rebelScenarioState (mkTx 51 1)).state
        (mkTx 51 2)).state.budgets.map Budget.locked_status = [true, true] ∧
    (record_transaction rebelPolicy
        (record_transaction rebelPolicy rebelScenarioState (mkTx 51 1)).state
        (mkTx 51 2)).state.account.locked_status = true ∧
    Signal.accountLockedWarning ∈
      (record_transaction rebelPolicy
        (record_transaction rebelPolicy rebelScenarioState (mkTx 51 1)).state
        (mkTx 51 2)).signals := by
  decide

/-! Structural lemmas about `lockPass`, `update_lock_status` and
`record_transaction`, shared by the invariant proofs below. -/

/-- Each position of the lock pass output holds the input budget either
unchanged or with its lock flag set. -/
theorem lockPass_get (lt : Option ℚ) (bs : List Budget) (n i : ℕ) (b : Budget)
    (h : bs[i]? = some b) :
    ∃ c, (lockPass lt bs n).1[i]? = some c ∧ (c = b ∨ c = b.lock_budget) := by
  induction bs generalizing n i with
  | nil => simp at h
  | cons b0 bs ih =>
    by_cases hb : b0.amount_total = 0
    · exact ⟨b, by simp [lockPass, hb, h], Or.inl rfl⟩
    · cases i with
      | zero =>
        simp only [List.getElem?_cons_zero, Option.some.injEq] at h
        subst h
        refine ⟨if truthyQ lt && decide (b0.amount_spent / b0.amount_total > lt.getD 0)
            then b0.lock_budget else b0, by simp [lockPass, hb], ?_⟩
        split
        · exact Or.inr rfl
        · exact Or.inl rfl
      | succ j =>
        simp only [List.getElem?_cons_succ] at h
        simp only [lockPass, if_neg hb, List.getElem?_cons_succ]
        exact ih _ j h

/-- The lock pass never faults when every budget total is nonzero. -/
theorem lockPass_no_fault (lt : Option ℚ) (bs : List Budget) :
    ∀ n, (∀ b ∈ bs, b.amount_total ≠ 0) → (lockPass lt bs n).2.2 = false := by
  induction bs with
  | nil => intro n _; rfl
  | cons b rest ih =>
    intro n h
    have hb : b.amount_total ≠ 0 := h b (List.mem_cons_self _ _)
    simp only [lockPass, if_neg hb]
    exact ih _ (fun x hx => h x (List.mem_cons_of_mem _ hx))

/-- Rerunning the lock pass on its own output changes nothing: spend ratios
are unchanged by locking, so exactly the same budgets are (re)locked and
the same count is reached. -/
theorem lockPass_stable (lt : Option ℚ) (bs : List Budget) :
    ∀ n, (∀ b ∈ bs, b.amount_total ≠ 0) →
    lockPass lt (lockPass lt bs n).1 n = lockPass lt bs n := by
  induction bs with
  | nil => intro n _; rfl
  | cons b rest ih =>
    intro n h
    have hb : b.amount_total ≠ 0 := h b (List.mem_cons_self _ _)
    have hrest : ∀ x ∈ rest, x.amount_total ≠ 0 :=
      fun x hx => h x (List.mem_cons_of_mem _ hx)
    by_cases hc : (truthyQ lt && decide (b.amount_spent / b.amount_total > lt.getD 0)) = true
    · simp only [lockPass, if_neg hb, hc, if_true, Budget.lock_budget]
      simp [lockPass, hb, Budget.lock_budget, hc, ih _ hrest]
    · simp only [lockPass, if_neg hb, hc, if_false]
      simp [lockPass, hb, hc, ih _ hrest]

/-- The state component of `update_lock_status` carries the lock pass
output as its budgets. -/
theorem update_lock_status_budgets (p : Policy) (s : UserState) :
    (update_lock_status p s).1.budgets = (lockPass p.lock_threshold s.budgets 0).1 := by
  simp only [update_lock_status]
  split
  · rfl
  · split <;> rfl

/-- `update_lock_status` touches only lock flags: the ledger, the sequence
counter and both balances are preserved, and a locked account stays locked. -/
theorem update_lock_status_fields (p : Policy) (s : UserState) :
    (update_lock_status p s).1.tx_records = s.tx_records ∧
    (update_lock_status p s).1.current_tx_number = s.current_tx_number ∧
    (update_lock_status p s).1.account.starting_balance = s.account.starting_balance ∧
    (update_lock_status p s).1.account.current_balance = s.account.current_balance ∧
    (s.account.locked_status = true → (update_lock_status p s).1.account.locked_status = true) := by
  simp only [update_lock_status]
  split
  · simp
  · split <;> simp

/-- A rejected `record_transaction` returns the input state itself. -/
theorem record_transaction_rejected_inv (p : Policy) (s : UserState) (tx : Transaction)
    (m : String) (s' : UserState)
    (h : record_transaction p s tx = .rejected m s') : s' = s := by
  unfold record_transaction at h
  by_cases hc : tx.budget_category = 0
  · simp [hc] at h
  · simp only [if_neg hc] at h
    cases hb : s.budgets[tx.budget_category - 1]? with
    | none => rw [hb] at h; simp at h
    | some budget =>
      rw [hb] at h
      simp only at h
      by_cases hv : (validate_transaction_record p s.account budget tx).1 = false
      · rw [if_pos hv] at h
        cases h
        rfl
      · rw [if_neg hv] at h
        split at h
        · simp at h
        · split at h
          · simp at h
          · split at h <;> simp at h

/-- An accepted `record_transaction` reached its final state by running
`update_lock_status` on the §4.2 mutation sequence. -/
theorem record_transaction_accepted_inv (p : Policy) (s : UserState) (tx : Transaction)
    (s' : UserState) (sigs : List Signal)
    (h : record_transaction p s tx = .accepted s' sigs) :
    ∃ budget, s.budgets[tx.budget_category - 1]? = some budget ∧
      s' = (update_lock_status p
        (acceptMutations s (tx.budget_category - 1) budget tx)).1 := by
  unfold record_transaction at h
  by_cases hc : tx.budget_category = 0
  · simp [hc] at h
  · simp only [if_neg hc] at h
    cases hb : s.budgets[tx.budget_category - 1]? with
    | none => rw [hb] at h; simp at h
    | some budget =>
      rw [hb] at h
      simp only at h
      by_cases hv : (validate_transaction_record p s.account budget tx).1 = false
      · rw [if_pos hv] at h; simp at h
      · rw [if_neg hv] at h
        refine ⟨budget, rfl, ?_⟩
        split at h
        · simp at h
        · split at h
          · simp at h
          · split at h
            · simp at h
            · cases h; rfl

/-- Every outcome of `record_transaction` leaves either the input state
untouched (rejection, unknown category) or the state produced by the lock
update over the three accept mutations (acceptance, or a fault raised
inside the lock update / warning check, whose prior mutations persist). -/
theorem record_transaction_state_cases (p : Policy) (s : UserState) (tx : Transaction) :
    (record_transaction p s tx).state = s ∨
    ∃ budget, s.budgets[tx.budget_category - 1]? = some budget ∧
      (record_transaction p s tx).state =
        (update_lock_status p
          (acceptMutations s (tx.budget_category - 1) budget tx)).1 := by
  unfold record_transaction
  by_cases hc : tx.budget_category = 0
  · simp [hc, RecordResult.state]
  · simp only [if_neg hc]
    cases hb : s.budgets[tx.budget_category - 1]? with
    | none => simp [RecordResult.state]
    | some budget =>
      simp only
      by_cases hv : (validate_transaction_record p s.account budget tx).1 = false
      · rw [if_pos hv]
        simp [RecordResult.state]
      · rw [if_neg hv]
        right
        refine ⟨budget, rfl, ?_⟩
        split
        · rfl
        · split
          · rfl
          · split <;> rfl

/-- Lock monotonicity is reflexive. -/
theorem lockStateMono_refl (s : UserState) : lockStateMono s s := by
  unfold lockStateMono
  refine ⟨fun h => h, fun i b b' h1 h2 hl => ?_⟩
  rw [h1] at h2
  cases h2
  exact hl

/-- `update_lock_status` never clears a lock flag. -/
theorem update_lock_status_mono (p : Policy) (s : UserState) :
    lockStateMono s (update_lock_status p s).1 := by
  unfold lockStateMono
  constructor
  · exact (update_lock_status_fields p s).2.2.2.2
  · intro i b b' hb hb' hl
    rw [update_lock_status_budgets] at hb'
    obtain ⟨c, hc1, hc2⟩ := lockPass_get p.lock_threshold s.budgets 0 i b hb
    rw [hc1] at hb'
    cases hb'
    rcases hc2 with rfl | rfl
    · exact hl
    · rfl

/-- `record_transaction` never clears a lock flag, whatever its outcome. -/
theorem record_transaction_mono (p : Policy) (s : UserState) (tx : Transaction) :
    lockStateMono s (record_transaction p s tx).state := by
  rcases record_transaction_state_cases p s tx with h | ⟨budget, hb, h⟩
  · rw [h]
    exact lockStateMono_refl s
  · rw [h]
    have hm := update_lock_status_mono p
      (acceptMutations s (tx.budget_category - 1) budget tx)
    unfold lockStateMono at hm ⊢
    constructor
    · intro ha
      apply hm.1
      simpa [acceptMutations, add_transaction, BankAccount.add_amount_spent] using ha
    · intro i b b' hbi hbi' hl
      by_cases hix : i = tx.budget_category - 1
      · subst hix
        rw [hb] at hbi
        cases hbi
        have hlen : tx.budget_category - 1 < s.budgets.length := by
          by_contra hlen
          rw [List.getElem?_eq_none (by omega)] at hb
          cases hb
        refine hm.2 (tx.budget_category - 1)
          (budget.add_amount_spent tx.tx_amount) b' ?_ hbi' hl
        simp [acceptMutations, add_transaction, List.getElem?_set_self, hlen]
      · refine hm.2 i b b' ?_ hbi' hl
        simp [acceptMutations, add_transaction,
          List.getElem?_set_ne (fun hh => hix hh.symm), hbi]

/-- C5: locking is monotonic.  For every state (reachable ones included),
once a budget's `locked_status` or the account's `locked_status` is true,
neither `update_lock_status` nor any outcome of `record_transaction`
(validation, the post-acceptance mutation sequence, the lock update and
the warning pass it wraps) ever resets that flag to false. -/
theorem locks_monotonic (p : Policy) (s : UserState) (tx : Transaction) :
    lockStateMono s (update_lock_status p s).1 ∧
    lockStateMono s (record_transaction p s tx).state :=
  ⟨update_lock_status_mono p s, record_transaction_mono p s tx⟩

/-- Witness for C5 on a state with a locked budget and an accepted
transaction against the other category. -/
theorem locks_monotonic_witness :
    lockStateMono lockedDemoState (update_lock_status rebelPolicy lockedDemoState).1 ∧
    lockStateMono lockedDemoState
      (record_transaction rebelPolicy lockedDemoState (mkTx 10 2)).state :=
  locks_monotonic rebelPolicy lockedDemoState (mkTx 10 2)

/-- An accepted transaction appends exactly one ledger record under the
current sequence number and advances the counter by one. -/
theorem record_transaction_accepted_records (p : Policy) (s : UserState)
    (tx : Transaction) (s' : UserState) (sigs : List Signal)
    (h : record_transaction p s tx = .accepted s' sigs) :
    s'.tx_records = s.tx_records ++ [(s.current_tx_number, tx)] ∧
    s'.current_tx_number = s.current_tx_number + 1 := by
  obtain ⟨budget, hb, rfl⟩ := record_transaction_accepted_inv p s tx s' sigs h
  have hf := update_lock_status_fields p
    (acceptMutations s (tx.budget_category - 1) budget tx)
  refine ⟨?_, ?_⟩
  · rw [hf.1]
    rfl
  · rw [hf.2.1]
    rfl

/-- Run invariant behind C7: along any fault-free run, the ledger keys
stay `1..len` in order, the counter stays `len + 1`, and the length grows
by exactly the number of accepted transactions. -/
theorem ledger_run_aux (p : Policy) (txs : List Transaction) : ∀ s : UserState,
    faultFree p s txs = true →
    s.tx_records.map Prod.fst = List.range' 1 s.tx_records.length →
    s.current_tx_number = s.tx_records.length + 1 →
    (runTxs p s txs).tx_records.map Prod.fst
        = List.range' 1 (runTxs p s txs).tx_records.length ∧
    (runTxs p s txs).current_tx_number = (runTxs p s txs).tx_records.length + 1 ∧
    (runTxs p s txs).tx_records.length = s.tx_records.length + countAccepted p s txs := by
  induction txs with
  | nil =>
    intro s _ h1 h2
    exact ⟨h1, h2, by simp [runTxs, countAccepted]⟩
  | cons t ts ih =>
    intro s hf h1 h2
    rw [faultFree, Bool.and_eq_true] at hf
    cases hr : record_transaction p s t with
    | fault s1 =>
      rw [hr] at hf
      simp at hf
    | rejected m s1 =>
      have hs1 : s1 = s := record_transaction_rejected_inv p s t m s1 hr
      rw [hr] at hf
      have hrun : runTxs p s (t :: ts) = runTxs p s ts := by
        simp [runTxs, hr, RecordResult.state, hs1]
      have hcnta : countAccepted p s (t :: ts) = countAccepted p s ts := by
        simp [countAccepted, hr, RecordResult.isAccepted, RecordResult.state, hs1]
      have hff : faultFree p s ts = true := by
        simpa [RecordResult.state, hs1] using hf.2
      rw [hrun, hcnta]
      exact ih s hff h1 h2
    | accepted s1 sigs =>
      rw [hr] at hf
      obtain ⟨hrec, hcnt⟩ := record_transaction_accepted_records p s t s1 sigs hr
      have hlen : s1.tx_records.length = s.tx_records.length + 1 := by
        rw [hrec]
        simp
      have h1' : s1.tx_records.map Prod.fst = List.range' 1 s1.tx_records.length := by
        rw [hrec, List.map_append, h1]
        simp [h2, List.range'_1_concat, Nat.add_comm]
      have h2' : s1.current_tx_number = s1.tx_records.length + 1 := by
        rw [hcnt, hlen, h2]
      have := ih s1 hf.2 h1' h2'
      refine ⟨?_, ?_, ?_⟩
      · simpa [runTxs, hr, RecordResult.state] using this.1
      · simpa [runTxs, hr, RecordResult.state] using this.2.1
      · rw [show runTxs p s (t :: ts) = runTxs p s1 ts by
            simp [runTxs, hr, RecordResult.state]]
        rw [this.2.2, hlen]
        simp [countAccepted, hr, RecordResult.isAccepted, RecordResult.state]
        omega

/-- C7: starting from a fresh `TransactionManager`, after any fault-free
sequence of accepted and rejected transactions the ledger's keys are
exactly `1..n` in insertion order, where `n` is the number of accepted
transactions, and the counter stands at `n + 1`; a rejected transaction
never consumes, gaps or reuses a sequence number (its ledger and counter
are returned untouched). -/
theorem ledger_keys_exact (p : Policy) (account : BankAccount)
    (budgets : List Budget) (txs : List Transaction)
    (hf : faultFree p (freshUserState account budgets) txs = true) :
    (runTxs p (freshUserState account budgets) txs).tx_records.map Prod.fst
        = List.range' 1 (countAccepted p (freshUserState account budgets) txs) ∧
    (runTxs p (freshUserState account budgets) txs).current_tx_number
        = countAccepted p (freshUserState account budgets) txs + 1 ∧
    ∀ (s : UserState) (tx : Transaction) (m : String) (s' : UserState),
      record_transaction p s tx = RecordResult.rejected m s' →
      s'.tx_records = s.tx_records ∧ s'.current_tx_number = s.current_tx_number := by
  have h0 := ledger_run_aux p txs (freshUserState account budgets) hf
    (by simp [freshUserState]) (by simp [freshUserState])
  have hlen : (runTxs p (freshUserState account budgets) txs).tx_records.length
      = countAccepted p (freshUserState account budgets) txs := by
    simpa [freshUserState] using h0.2.2
  refine ⟨?_, ?_, ?_⟩
  · rw [← hlen]
    exact h0.1
  · rw [← hlen]
    exact h0.2.1
  · intro s tx m s' hrej
    rw [record_transaction_rejected_inv p s tx m s' hrej]
    exact ⟨rfl, rfl⟩

/-- Witness for C7: an accept/reject/accept run yields keys `[1, 2]` and
counter `3`. -/
theorem ledger_keys_exact_witness :
    faultFree rebelPolicy ledgerDemoState ledgerDemoTxs = true ∧
    ((runTxs rebelPolicy ledgerDemoState ledgerDemoTxs).tx_records.map Prod.fst
        = List.range' 1 (countAccepted rebelPolicy ledgerDemoState ledgerDemoTxs) ∧
     (runTxs rebelPolicy ledgerDemoState ledgerDemoTxs).current_tx_number
        = countAccepted rebelPolicy ledgerDemoState ledgerDemoTxs + 1 ∧
     ∀ (s : UserState) (tx : Transaction) (m : String) (s' : UserState),
       record_transaction rebelPolicy s tx = RecordResult.rejected m s' →
       s'.tx_records = s.tx_records ∧ s'.current_tx_number = s.current_tx_number) :=
  ⟨by decide,
   ledger_keys_exact rebelPolicy
     (BankAccount.generate_bank_account "A01074676" "TD Bank" 5000)
     [mkBudget .games_and_entertainment 100 0 false] ledgerDemoTxs (by decide)⟩

/-- C8: with every budget total nonzero, `update_lock_status` is
idempotent — the entire state after a second consecutive call (budget lock
flags and the account lock flag included) equals the state after the
first. -/
theorem update_lock_status_idempotent (p : Policy) (s : UserState)
    (h : ∀ b ∈ s.budgets, b.amount_total ≠ 0) :
    (update_lock_status p (update_lock_status p s).1).1 = (update_lock_status p s).1 := by
  have hstable := lockPass_stable p.lock_threshold s.budgets 0 h
  have hnf := lockPass_no_fault p.lock_threshold s.budgets 0 h
  by_cases hcond : (truthyN p.max_locked_budgets &&
      decide ((lockPass p.lock_threshold s.budgets 0).2.1 ≥
        p.max_locked_budgets.getD 0)) = true
  · simp [update_lock_status, hnf, hcond, hstable]
  · simp [update_lock_status, hnf, hcond, hstable]

/-- Witness for C8 on the two-budget Rebel scenario state. -/
theorem update_lock_status_idempotent_witness :
    (∀ b ∈ rebelScenarioState.budgets, b.amount_total ≠ 0) ∧
    (update_lock_status rebelPolicy (update_lock_status rebelPolicy rebelScenarioState).1).1
      = (update_lock_status rebelPolicy rebelScenarioState).1 :=
  ⟨by decide, update_lock_status_idempotent rebelPolicy rebelScenarioState (by decide)⟩

/-- `calc_total_spent` as a fold from an arbitrary accumulator. -/
theorem calc_total_spent_foldl (l : List (ℕ × Transaction)) : ∀ a : ℚ,
    l.foldl (fun total r => total + r.2.tx_amount) a = a + calc_total_spent l := by
  induction l with
  | nil => intro a; simp [calc_total_spent]
  | cons r l ih =>
    intro a
    simp only [calc_total_spent, List.foldl_cons]
    rw [ih (a + r.2.tx_amount), ih (0 + r.2.tx_amount)]
    ring

/-- Appending one ledger record adds its amount to the total spent. -/
theorem calc_total_spent_append (l : List (ℕ × Transaction)) (r : ℕ × Transaction) :
    calc_total_spent (l ++ [r]) = calc_total_spent l + r.2.tx_amount := by
  simp only [calc_total_spent, List.foldl_append, List.foldl_cons, List.foldl_nil]

/-- One `record_transaction` step preserves the balance-conservation
invariant, whatever its outcome. -/
theorem record_transaction_balance_step (p : Policy) (s : UserState) (tx : Transaction)
    (h : s.account.current_balance =
      s.account.starting_balance - calc_total_spent s.tx_records) :
    (record_transaction p s tx).state.account.starting_balance
        = s.account.starting_balance ∧
    (record_transaction p s tx).state.account.current_balance =
      (record_transaction p s tx).state.account.starting_balance -
        calc_total_spent (record_transaction p s tx).state.tx_records := by
  rcases record_transaction_state_cases p s tx with hcase | ⟨budget, hb, hcase⟩
  · rw [hcase]
    exact ⟨rfl, h⟩
  · rw [hcase]
    have hf := update_lock_status_fields p
      (acceptMutations s (tx.budget_category - 1) budget tx)
    refine ⟨?_, ?_⟩
    · rw [hf.2.2.1]
      rfl
    · rw [hf.2.2.2.1, hf.2.2.1, hf.1]
      show s.account.current_balance - tx.tx_amount =
        s.account.starting_balance -
          calc_total_spent (s.tx_records ++ [(s.current_tx_number, tx)])
      rw [calc_total_spent_append, h]
      ring

/-- The balance-conservation invariant is preserved along any run. -/
theorem balance_run_aux (p : Policy) (txs : List Transaction) : ∀ s : UserState,
    s.account.current_balance =
      s.account.starting_balance - calc_total_spent s.tx_records →
    (runTxs p s txs).account.starting_balance = s.account.starting_balance ∧
    (runTxs p s txs).account.current_balance =
      (runTxs p s txs).account.starting_balance -
        calc_total_spent (runTxs p s txs).tx_records := by
  induction txs with
  | nil => intro s h; exact ⟨rfl, h⟩
  | cons t ts ih =>
    intro s h
    have hstep := record_transaction_balance_step p s t h
    have hrec := ih (record_transaction p s t).state hstep.2
    simp only [runTxs]
    exact ⟨hrec.1.trans hstep.1, hrec.2⟩

/-- C10: `starting_balance` is never written after `BankAccount`
construction, and after any sequence of `record_transaction` calls from a
fresh user the current balance equals the starting balance minus
`calc_total_spent` over the ledger. -/
theorem balance_conservation (p : Policy) (num name : String) (bal : ℚ)
    (budgets : List Budget) (txs : List Transaction) :
    (runTxs p (freshUserState (BankAccount.generate_bank_account num name bal) budgets)
        txs).account.starting_balance = bal ∧
    (runTxs p (freshUserState (BankAccount.generate_bank_account num name bal) budgets)
        txs).account.current_balance =
      bal - calc_total_spent
        (runTxs p (freshUserState (BankAccount.generate_bank_account num name bal) budgets)
          txs).tx_records := by
  have h := balance_run_aux p txs
    (freshUserState (BankAccount.generate_bank_account num name bal) budgets)
    (by simp [freshUserState, BankAccount.generate_bank_account, calc_total_spent])
  refine ⟨h.1, ?_⟩
  rw [h.2, h.1]
  rfl

end FAM
